import Mathlib

/-!
Shallow embedding of `src/validator_context_backport_mixin.py`
(`ValidatorContextBackwardsCompatibilityMixin`).

The mixin rebinds a validator class's `__call__` so that a context value
delivered through the legacy `set_context` method is pre-bound (via
`functools.partialmethod`) to the parameter whose name is
`cls.__call__.__code__.co_varnames[2]`.

The embedding models:
  * Python callables as far as the mixin observes them: a plain function
    carries a code object (`co_argcount`, `co_varnames`); the value built by
    `functools.partialmethod(f, **{name: ctx})` is `Callable.wrapped f name ctx`
    (a keyword pre-binding; it has no `__code__` attribute);
  * CPython's argument-to-parameter binding for positional plus keyword
    arguments (`invoke`), including the errors raised for an unexpected
    keyword, a duplicate binding, a missing argument and surplus positionals;
  * the per-class mutable attributes the mixin touches
    (`__call__`, `_original_dunder_call`, `_dunder_call_lock`,
    `requires_context`) as a `ClassState` record, with one Lean function per
    Python method;
  * for the concurrency claims, a small-step interleaving machine in which
    each Python attribute read/write of `set_context` is one atomic step.
-/

namespace ValidatorContextBackport

/-- Context values are opaque to the mixin; we model them as naturals. -/
abbrev Ctx := Nat

/-- The part of a Python code object the mixin reads: `co_argcount` and
`co_varnames` (parameter names first, then local-variable names). -/
structure Code where
  argcount : Nat
  varnames : List String
  deriving DecidableEq, Repr

/-- A Python callable as the mixin observes it.  `func nm code` is a plain
function (it has a `__code__`); `wrapped f name ctx` is the object built by
`functools.partialmethod(f, **\x7bname: ctx\x7d)` — a keyword pre-binding
around `f`, with no `__code__` of its own. -/
inductive Callable where
  | func : String → Code → Callable
  | wrapped : Callable → String → Ctx → Callable
  deriving DecidableEq, Repr

/-- Errors surfaced by the embedded Python fragments. -/
inductive PyErr where
  /-- `IndexError: tuple index out of range` from `co_varnames[2]`. -/
  | indexError
  /-- `AttributeError` from reading `__code__` off an object without one. -/
  | attributeError
  /-- `TypeError: got an unexpected keyword argument`. -/
  | unexpectedKw
  /-- `TypeError: got multiple values for argument`. -/
  | multipleValues
  /-- `TypeError: missing a required argument`. -/
  | missingArg
  /-- `TypeError: too many positional arguments`. -/
  | tooManyPos
  /-- `TypeError: object is not callable`. -/
  | notCallable
  deriving DecidableEq, Repr

/-- Index of the first occurrence of `k` in `l` (= `l.length` when absent);
mirrors how a keyword argument is matched against `co_varnames`. -/
def idxOf (k : String) : List String → Nat
  | [] => 0
  | x :: xs => if x = k then 0 else idxOf k xs + 1

/-- The `__code__` attribute: only a plain function has one
(`functools.partialmethod` objects do not). -/
def dunderCode : Callable → Option Code
  | .func _ cd => some cd
  | .wrapped _ _ _ => none

/-- Bind a list of keyword arguments into the parameter slots.  `npos` is the
number of parameters already filled positionally.  A keyword that is not a
parameter name (absent, or naming a local variable at an index `≥ argcount`)
raises `unexpectedKw`; one naming a positionally-filled parameter raises
`multipleValues`; a repeated keyword (dict merge) lets the later value win. -/
def bindKws (cd : Code) (npos : Nat) :
    List (Option Ctx) → List (String × Ctx) → Except PyErr (List (Option Ctx))
  | slots, [] => .ok slots
  | slots, (k, v) :: rest =>
    if idxOf k cd.varnames < cd.argcount then
      if idxOf k cd.varnames < npos then .error .multipleValues
      else bindKws cd npos (slots.set (idxOf k cd.varnames) (some v)) rest
    else .error .unexpectedKw

/-- Collect fully-filled slots, or `none` if some parameter is unbound. -/
def allSome : List (Option Ctx) → Option (List Ctx)
  | [] => some []
  | some v :: rest => (allSome rest).map (v :: ·)
  | none :: _ => none

/-- CPython's binding of a call `f(*ps, **kws)` against `f`'s code object:
positionals fill the leading parameter slots, keywords the named ones; the
result records the function's name and the bound values in parameter order. -/
def bindCall (nm : String) (cd : Code) (ps : List Ctx) (kws : List (String × Ctx)) :
    Except PyErr (String × List Ctx) :=
  if cd.argcount < ps.length then .error .tooManyPos
  else
    match bindKws cd ps.length ((ps.map some) ++ List.replicate (cd.argcount - ps.length) none) kws with
    | .error e => .error e
    | .ok slots =>
      match allSome slots with
      | none => .error .missingArg
      | some vs => .ok (nm, vs)

/-- Invoke a callable on positional arguments `ps` and keyword arguments
`kws`.  A `wrapped` callable forwards to the wrapped function with its
pre-bound keyword prepended (call-site keywords override it, as with the
dict merge performed by `functools.partial`). -/
def invoke : Callable → List Ctx → List (String × Ctx) → Except PyErr (String × List Ctx)
  | .wrapped f k v, ps, kws => invoke f ps ((k, v) :: kws)
  | .func nm cd, ps, kws => bindCall nm cd ps kws

/-- The per-class attributes `ValidatorContextBackwardsCompatibilityMixin`
reads and writes, for one validator class:
`__call__` (set to `None` only by a mid-failure of the rebinding),
`_original_dunder_call` (class default `None`),
`_dunder_call_lock` existence (class default `None`; the sequential model
only needs whether a lock object has been stored), and `requires_context`. -/
structure ClassState where
  dunder_call : Option Callable
  original_dunder_call : Option Callable
  lockCreated : Bool
  requires_context : Bool
  deriving DecidableEq, Repr

/-- The `_dunder_call_modification_guard` classproperty, sequentially:
`if not cls._dunder_call_lock: cls._dunder_call_lock = threading.Lock()`.
Acquiring and releasing the lock is a no-op in the sequential model. -/
def acquireGuard (s : ClassState) : ClassState :=
  if s.lockCreated then s else { s with lockCreated := true }

/-- `_save_original_dunder_call`: `cls._original_dunder_call = cls.__call__`. -/
def save_original_dunder_call (s : ClassState) : ClassState :=
  { s with original_dunder_call := s.dunder_call }

/-- `_disable_requires_context_flag`: `cls.requires_context = False`. -/
def disable_requires_context_flag (s : ClassState) : ClassState :=
  { s with requires_context := false }

/-- `_provide_context_to_dunder_call`:
`cls.__call__ = cls._original_dunder_call`;
`context_param_name = cls.__call__.__code__.co_varnames[2]`;
`cls.__call__ = functools.partialmethod(cls.__call__, **\x7bcontext_param_name: context\x7d)`.
The returned `Option PyErr` is the exception the Python body raises, if any;
the returned state reflects the attribute writes performed before raising. -/
def provide_context_to_dunder_call (s : ClassState) (context : Ctx) :
    ClassState × Option PyErr :=
  match s.original_dunder_call with
  | none => ({ s with dunder_call := none }, some .attributeError)
  | some f =>
    match dunderCode f with
    | none => ({ s with dunder_call := some f }, some .attributeError)
    | some cd =>
      match cd.varnames[2]? with
      | none => ({ s with dunder_call := some f }, some .indexError)
      | some context_param_name =>
        ({ s with dunder_call := some (.wrapped f context_param_name context) }, none)

/-- `set_context`:
`with self._dunder_call_modification_guard:` then, inside the guard,
`if not self._original_dunder_call: self._save_original_dunder_call();
self._disable_requires_context_flag()`, then
`self._provide_context_to_dunder_call(context)`. -/
def set_context (s : ClassState) (context : Ctx) : ClassState × Option PyErr :=
  let s1 := acquireGuard s
  let s2 :=
    if s1.original_dunder_call.isNone
    then disable_requires_context_flag (save_original_dunder_call s1)
    else s1
  provide_context_to_dunder_call s2 context

/-- Sequential composition of `set_context` deliveries (each call's raised
exception, if any, is swallowed by the caller between deliveries). -/
def set_context_seq (s : ClassState) (ctxs : List Ctx) : ClassState :=
  ctxs.foldl (fun s c => (set_context s c).1) s

/-- A fresh validator class using the mixin: its own `__call__` is `f`, the
mixin class attributes `_original_dunder_call` and `_dunder_call_lock` are
still `None`, and `requires_context` is `flag`. -/
def initState (f : Callable) (flag : Bool) : ClassState :=
  ⟨some f, none, false, flag⟩

/-- The last element of `c :: cs`. -/
def lastCtx (c : Ctx) : List Ctx → Ctx
  | [] => c
  | c' :: cs => lastCtx c' cs

/-! ### Helper lemmas about the sequential model -/

theorem provide_keeps_original (s : ClassState) (c : Ctx) :
    ((provide_context_to_dunder_call s c).1).original_dunder_call =
      s.original_dunder_call := by
  unfold provide_context_to_dunder_call
  rcases ho : s.original_dunder_call with _ | f
  · simp [ho]
  · rcases hcd : dunderCode f with _ | cd
    · simp [ho, hcd]
    · rcases hz : cd.varnames[2]? with _ | nm <;> simp [ho, hcd, hz]

theorem provide_keeps_flag (s : ClassState) (c : Ctx) :
    ((provide_context_to_dunder_call s c).1).requires_context =
      s.requires_context := by
  unfold provide_context_to_dunder_call
  rcases ho : s.original_dunder_call with _ | f
  · simp [ho]
  · rcases hcd : dunderCode f with _ | cd
    · simp [ho, hcd]
    · rcases hz : cd.varnames[2]? with _ | nm <;> simp [ho, hcd, hz]

/-- On a class that has not yet captured its original `__call__`,
`set_context` acquires the guard, captures `__call__`, clears the flag and
then rebinds. -/
theorem set_context_uncaptured (dc : Option Callable) (lk rc : Bool) (c : Ctx) :
    set_context ⟨dc, none, lk, rc⟩ c =
      provide_context_to_dunder_call ⟨dc, dc, true, false⟩ c := by
  cases lk <;> rfl

/-- Once the original `__call__` is captured, `set_context` only acquires the
guard and rebinds: no second capture, no flag write. -/
theorem set_context_captured (dc : Option Callable) (g : Callable) (lk rc : Bool) (c : Ctx) :
    set_context ⟨dc, some g, lk, rc⟩ c =
      provide_context_to_dunder_call ⟨dc, some g, true, rc⟩ c := by
  cases lk <;> rfl

/-- Rebinding against a captured plain function whose code object has a third
varname `z` stores `functools.partialmethod(f, **\x7bz: c\x7d)` as `__call__`. -/
theorem provide_func_third (dc : Option Callable) (nm : String) (cd : Code)
    (z : String) (lk rc : Bool) (c : Ctx) (hz : cd.varnames[2]? = some z) :
    provide_context_to_dunder_call ⟨dc, some (.func nm cd), lk, rc⟩ c =
      (⟨some (.wrapped (.func nm cd) z c), some (.func nm cd), lk, rc⟩, none) := by
  unfold provide_context_to_dunder_call
  simp [dunderCode, hz]

/-- Rebinding against a captured plain function whose code object has no
third varname raises `IndexError` and leaves `__call__` restored unbound. -/
theorem provide_func_short (dc : Option Callable) (nm : String) (cd : Code)
    (lk rc : Bool) (c : Ctx) (hz : cd.varnames[2]? = none) :
    provide_context_to_dunder_call ⟨dc, some (.func nm cd), lk, rc⟩ c =
      (⟨some (.func nm cd), some (.func nm cd), lk, rc⟩, some .indexError) := by
  unfold provide_context_to_dunder_call
  simp [dunderCode, hz]

/-- One `set_context` step on a class whose original is already captured, in
fully applied form. -/
theorem set_context_step_captured (dc : Option Callable) (nm : String) (cd : Code)
    (z : String) (lk rc : Bool) (c : Ctx) (hz : cd.varnames[2]? = some z) :
    set_context ⟨dc, some (.func nm cd), lk, rc⟩ c =
      (⟨some (.wrapped (.func nm cd) z c), some (.func nm cd), true, rc⟩, none) := by
  rw [set_context_captured, provide_func_third _ _ _ _ _ _ _ hz]

theorem set_context_keeps_original_some (dc : Option Callable) (g : Callable)
    (lk rc : Bool) (c : Ctx) :
    ((set_context ⟨dc, some g, lk, rc⟩ c).1).original_dunder_call = some g := by
  rw [set_context_captured, provide_keeps_original]

theorem seq_cons (s : ClassState) (c : Ctx) (cs : List Ctx) :
    set_context_seq s (c :: cs) = set_context_seq ((set_context s c).1) cs := rfl

theorem seq_keeps_original (g : Callable) (cs : List Ctx) :
    ∀ s : ClassState, s.original_dunder_call = some g →
      (set_context_seq s cs).original_dunder_call = some g := by
  induction cs with
  | nil => intro s h; exact h
  | cons c cs ih =>
    intro s h
    obtain ⟨dc, od, lk, rc⟩ := s
    rw [show (ClassState.mk dc od lk rc).original_dunder_call = od from rfl] at h
    subst h
    exact ih _ (set_context_keeps_original_some dc g lk rc c)

/-- After any delivery sequence started from a state whose captured original
is a plain function with a third varname `z`, `__call__` is a single
`wrapped` layer around that function, pre-binding the last context. -/
theorem seq_wrapped_inv (nm : String) (cd : Code) (z : String)
    (hz : cd.varnames[2]? = some z) (cs : List Ctx) :
    ∀ (c0 : Ctx) (lk rc : Bool) (dc : Option Callable),
      (set_context_seq ⟨dc, some (.func nm cd), lk, rc⟩ (c0 :: cs)).dunder_call =
        some (.wrapped (.func nm cd) z (lastCtx c0 cs)) := by
  induction cs with
  | nil =>
    intro c0 lk rc dc
    rw [seq_cons, set_context_step_captured dc nm cd z lk rc c0 hz]
    rfl
  | cons c1 cs ih =>
    intro c0 lk rc dc
    rw [seq_cons, set_context_step_captured dc nm cd z lk rc c0 hz]
    exact ih c1 true rc (some (.wrapped (.func nm cd) z c0))

/-- The index of `z` among the varnames `x :: y :: z :: rest` is `2` when `z`
differs from the two names before it. -/
theorem idxOf_third (x y z : String) (rest : List String)
    (hzx : z ≠ x) (hzy : z ≠ y) : idxOf z (x :: y :: z :: rest) = 2 := by
  unfold idxOf
  rw [if_neg (fun h => hzx h.symm)]
  unfold idxOf
  rw [if_neg (fun h => hzy h.symm)]
  unfold idxOf
  rw [if_pos rfl]

/-- Binding the call `f(a, b, **\x7bz: C\x7d)` against a three-parameter code
object `(x, y, z)` fills the third slot with `C`. -/
theorem bind_three (nm x y z : String) (rest : List String) (a b C : Ctx)
    (hzx : z ≠ x) (hzy : z ≠ y) :
    bindCall nm ⟨3, x :: y :: z :: rest⟩ [a, b] [(z, C)] = .ok (nm, [a, b, C]) := by
  have hi := idxOf_third x y z rest hzx hzy
  simp [bindCall, bindKws, hi, allSome]

/-- Binding the fully positional call `f(a, b, C)` against a three-parameter
code object. -/
theorem bind_three_direct (nm : String) (cd : Code) (a b C : Ctx)
    (h : cd.argcount = 3) : bindCall nm cd [a, b, C] [] = .ok (nm, [a, b, C]) := by
  unfold bindCall
  rw [h]
  rfl

theorem invoke_wrapped (f : Callable) (k : String) (v : Ctx)
    (ps : List Ctx) (kws : List (String × Ctx)) :
    invoke (.wrapped f k v) ps kws = invoke f ps ((k, v) :: kws) := rfl

/-- Every invocation of a `wrapped` whose pre-bound keyword does not name a
parameter of the underlying function fails with a `TypeError`. -/
theorem invoke_bogus_kw (nm z : String) (cd : Code) (C : Ctx) (ps : List Ctx)
    (hidx : cd.argcount ≤ idxOf z cd.varnames) :
    ∃ e, invoke (.wrapped (.func nm cd) z C) ps [] = .error e := by
  rw [invoke_wrapped]
  show ∃ e, bindCall nm cd ps [(z, C)] = .error e
  unfold bindCall
  by_cases hp : cd.argcount < ps.length
  · exact ⟨.tooManyPos, by rw [if_pos hp]⟩
  · refine ⟨.unexpectedKw, ?_⟩
    rw [if_neg hp]
    unfold bindKws
    rw [if_neg (Nat.not_lt.mpr hidx)]

/-! ### Isolation across classes

Every attribute the mixin writes is written through `cls`, the class of the
instance on which `set_context` was invoked (`classmethod`s receive it as
`cls`, and the lazy lock assignment targets `cls` as well).  A world maps
class identities to their per-class state; a delivery to class `a` applies
`set_context` to `a`'s state only. -/

def World : Type := Nat → ClassState

/-- Deliver a context to class `a` of the world. -/
def set_context_world (w : World) (a : Nat) (C : Ctx) : World :=
  fun k => if k = a then (set_context (w a) C).1 else w k

/-- A concrete world of fresh validator classes, for witnesses. -/
def exWorld : World :=
  fun _ => initState (.func "f" ⟨3, ["self", "value", "serializer_field"]⟩) true

/-! ### Claims -/

/-- C1, counterexample: for a validator class whose entry point is literally
`f(self, ctx)` — a code object with varnames `('self', 'ctx')` — `set_context`
raises `IndexError` (`co_varnames[2]` is out of range) and leaves `__call__`
unbound, so invoking with no explicit context is NOT the same as calling
`f(self, C)` directly: the former fails with a missing-argument `TypeError`,
the latter succeeds. -/
theorem C1_context_forwarding_cex :
    (set_context (initState (.func "f" ⟨2, ["self", "ctx"]⟩) true) 7).2 =
      some .indexError ∧
    (set_context (initState (.func "f" ⟨2, ["self", "ctx"]⟩) true) 7).1.dunder_call =
      some (.func "f" ⟨2, ["self", "ctx"]⟩) ∧
    invoke (.func "f" ⟨2, ["self", "ctx"]⟩) [0] [] = .error .missingArg ∧
    invoke (.func "f" ⟨2, ["self", "ctx"]⟩) [0, 7] [] = .ok ("f", [0, 7]) ∧
    (Except.error PyErr.missingArg : Except PyErr (String × List Ctx)) ≠
      .ok ("f", [0, 7]) :=
  ⟨rfl, rfl, rfl, rfl, fun h => Except.noConfusion h⟩

/-- C1 (amended): for a validator class whose original entry point declares
the context as its second parameter after `self` — varnames
`(self, value, ctx, ...)`, so the context name is `co_varnames[2]` — and a
context value `C` delivered via `set_context(C)`, the delivery succeeds,
`__call__` becomes the original pre-bound with `\x7bctx: C\x7d`, and invoking the
rebound entry point with no explicit context argument yields the same result
as calling `f(self, value, C)` directly. -/
theorem C1_context_forwarding (nm x y z : String) (rest : List String) (flag : Bool)
    (inst v C : Ctx) (hzx : z ≠ x) (hzy : z ≠ y) :
    (set_context (initState (.func nm ⟨3, x :: y :: z :: rest⟩) flag) C).2 = none ∧
    (set_context (initState (.func nm ⟨3, x :: y :: z :: rest⟩) flag) C).1.dunder_call =
      some (.wrapped (.func nm ⟨3, x :: y :: z :: rest⟩) z C) ∧
    invoke (.wrapped (.func nm ⟨3, x :: y :: z :: rest⟩) z C) [inst, v] [] =
      invoke (.func nm ⟨3, x :: y :: z :: rest⟩) [inst, v, C] [] ∧
    invoke (.func nm ⟨3, x :: y :: z :: rest⟩) [inst, v, C] [] =
      .ok (nm, [inst, v, C]) := by
  have hz : ((⟨3, x :: y :: z :: rest⟩ : Code)).varnames[2]? = some z := by simp
  have e1 : set_context (initState (.func nm ⟨3, x :: y :: z :: rest⟩) flag) C =
      (⟨some (.wrapped (.func nm ⟨3, x :: y :: z :: rest⟩) z C),
        some (.func nm ⟨3, x :: y :: z :: rest⟩), true, false⟩, none) := by
    simp only [initState]
    rw [set_context_uncaptured, provide_func_third _ _ _ _ _ _ _ hz]
  refine ⟨by rw [e1], by rw [e1], ?_, ?_⟩
  · rw [invoke_wrapped]
    show bindCall nm ⟨3, x :: y :: z :: rest⟩ [inst, v] [(z, C)] =
      bindCall nm ⟨3, x :: y :: z :: rest⟩ [inst, v, C] []
    rw [bind_three nm x y z rest inst v C hzx hzy,
      bind_three_direct nm ⟨3, x :: y :: z :: rest⟩ inst v C rfl]
  · exact bind_three_direct nm ⟨3, x :: y :: z :: rest⟩ inst v C rfl

/-- Witness for C1 at a concrete DRF-shaped validator. -/
theorem C1_context_forwarding_witness :
    ("serializer_field" : String) ≠ "self" ∧ ("serializer_field" : String) ≠ "value" ∧
    ((set_context (initState (.func "f" ⟨3, ["self", "value", "serializer_field"]⟩) true) 9).2 = none ∧
     (set_context (initState (.func "f" ⟨3, ["self", "value", "serializer_field"]⟩) true) 9).1.dunder_call =
       some (.wrapped (.func "f" ⟨3, ["self", "value", "serializer_field"]⟩) "serializer_field" 9) ∧
     invoke (.wrapped (.func "f" ⟨3, ["self", "value", "serializer_field"]⟩) "serializer_field" 9) [0, 1] [] =
       invoke (.func "f" ⟨3, ["self", "value", "serializer_field"]⟩) [0, 1, 9] [] ∧
     invoke (.func "f" ⟨3, ["self", "value", "serializer_field"]⟩) [0, 1, 9] [] =
       .ok ("f", [0, 1, 9])) :=
  ⟨by decide, by decide,
   C1_context_forwarding "f" "self" "value" "serializer_field" [] true 0 1 9
     (by decide) (by decide)⟩

/-- C2: for every sequence of `N ≥ 1` sequential `set_context` calls on the
same class, the captured `_original_dunder_call` equals the class's
`__call__` as it was before the first call, and is never captured a second
time (its value stays that first capture for the whole sequence, even though
rebinding replaces `__call__` on every call). -/
theorem C2_idempotent_capture (f : Callable) (flag : Bool) (c : Ctx) (cs : List Ctx) :
    (set_context_seq (initState f flag) (c :: cs)).original_dunder_call = some f := by
  rw [seq_cons]
  apply seq_keeps_original
  simp only [initState]
  rw [set_context_uncaptured, provide_keeps_original]

/-- C3: after exactly one `set_context` call on a fresh class, the
`requires_context` flag reads `False`, whatever its pre-delivery value
`flag` was. -/
theorem C3_flag_suppression (f : Callable) (flag : Bool) (C : Ctx) :
    ((set_context (initState f flag) C).1).requires_context = false := by
  simp only [initState]
  rw [set_context_uncaptured, provide_keeps_flag]

/-- C4: delivering `c1` then `c2` leaves the class in the same rebound state
as delivering `c2` alone, the rebound `__call__` pre-binds `c2` (rebinding
happens on every delivery), and the next invocation observes `c2`. -/
theorem C4_last_write_wins (nm x y z : String) (rest : List String) (flag : Bool)
    (c1 c2 inst v : Ctx) (hzx : z ≠ x) (hzy : z ≠ y) :
    (set_context ((set_context (initState (.func nm ⟨3, x :: y :: z :: rest⟩) flag) c1).1) c2).1 =
      (set_context (initState (.func nm ⟨3, x :: y :: z :: rest⟩) flag) c2).1 ∧
    ((set_context ((set_context (initState (.func nm ⟨3, x :: y :: z :: rest⟩) flag) c1).1) c2).1).dunder_call =
      some (.wrapped (.func nm ⟨3, x :: y :: z :: rest⟩) z c2) ∧
    invoke (.wrapped (.func nm ⟨3, x :: y :: z :: rest⟩) z c2) [inst, v] [] =
      .ok (nm, [inst, v, c2]) := by
  have hz : ((⟨3, x :: y :: z :: rest⟩ : Code)).varnames[2]? = some z := by simp
  have e1 : set_context (initState (.func nm ⟨3, x :: y :: z :: rest⟩) flag) c1 =
      (⟨some (.wrapped (.func nm ⟨3, x :: y :: z :: rest⟩) z c1),
        some (.func nm ⟨3, x :: y :: z :: rest⟩), true, false⟩, none) := by
    simp only [initState]
    rw [set_context_uncaptured, provide_func_third _ _ _ _ _ _ _ hz]
  have e2 : set_context (⟨some (.wrapped (.func nm ⟨3, x :: y :: z :: rest⟩) z c1),
        some (.func nm ⟨3, x :: y :: z :: rest⟩), true, false⟩ : ClassState) c2 =
      (⟨some (.wrapped (.func nm ⟨3, x :: y :: z :: rest⟩) z c2),
        some (.func nm ⟨3, x :: y :: z :: rest⟩), true, false⟩, none) :=
    set_context_step_captured _ nm _ z true false c2 hz
  have e3 : set_context (initState (.func nm ⟨3, x :: y :: z :: rest⟩) flag) c2 =
      (⟨some (.wrapped (.func nm ⟨3, x :: y :: z :: rest⟩) z c2),
        some (.func nm ⟨3, x :: y :: z :: rest⟩), true, false⟩, none) := by
    simp only [initState]
    rw [set_context_uncaptured, provide_func_third _ _ _ _ _ _ _ hz]
  refine ⟨?_, ?_, ?_⟩
  · rw [e1]
    dsimp only
    rw [e2, e3]
  · rw [e1]
    dsimp only
    rw [e2]
  · rw [invoke_wrapped]
    show bindCall nm ⟨3, x :: y :: z :: rest⟩ [inst, v] [(z, c2)] = .ok (nm, [inst, v, c2])
    rw [bind_three nm x y z rest inst v c2 hzx hzy]

/-- Witness for C4 at a concrete DRF-shaped validator. -/
theorem C4_last_write_wins_witness :
    ("serializer_field" : String) ≠ "self" ∧ ("serializer_field" : String) ≠ "value" ∧
    ((set_context ((set_context (initState (.func "f" ⟨3, ["self", "value", "serializer_field"]⟩) true) 4).1) 5).1 =
       (set_context (initState (.func "f" ⟨3, ["self", "value", "serializer_field"]⟩) true) 5).1 ∧
     ((set_context ((set_context (initState (.func "f" ⟨3, ["self", "value", "serializer_field"]⟩) true) 4).1) 5).1).dunder_call =
       some (.wrapped (.func "f" ⟨3, ["self", "value", "serializer_field"]⟩) "serializer_field" 5) ∧
     invoke (.wrapped (.func "f" ⟨3, ["self", "value", "serializer_field"]⟩) "serializer_field" 5) [0, 1] [] =
       .ok ("f", [0, 1, 5])) :=
  ⟨by decide, by decide,
   C4_last_write_wins "f" "self" "value" "serializer_field" [] true 4 5 0 1
     (by decide) (by decide)⟩

/-- C5, counterexample: a validator whose entry point declares only
`(self, value)` but whose code object carries a local variable name `tmp`
(varnames `('self', 'value', 'tmp')`).  The first `set_context` raises
nothing at all — it silently pre-binds the context to the local name `tmp` —
and the failure surfaces only when the rebound entry point is invoked.
This refutes the claim that the first delivery raises a descriptive
configuration error. -/
theorem C5_missing_param_cex :
    (set_context (initState (.func "f" ⟨2, ["self", "value", "tmp"]⟩) true) 3).2 = none ∧
    (set_context (initState (.func "f" ⟨2, ["self", "value", "tmp"]⟩) true) 3).1.dunder_call =
      some (.wrapped (.func "f" ⟨2, ["self", "value", "tmp"]⟩) "tmp" 3) ∧
    invoke (.wrapped (.func "f" ⟨2, ["self", "value", "tmp"]⟩) "tmp" 3) [0, 1] [] =
      .error .unexpectedKw :=
  ⟨rfl, rfl, rfl⟩

/-- C5 (amended): for a validator class whose entry point does not declare a
second (context) parameter after `self` (`argcount ≤ 2`), the first
`set_context` call raises a bare `IndexError` when the code object has no
third varname, and when the code object does have a third varname (a local
variable) the first delivery completes silently, pre-binding the context to
that non-parameter name, after which every invocation of the rebound entry
point fails with a `TypeError`; in neither case is a descriptive
configuration error raised. -/
theorem C5_missing_param_amended (nm x y z : String) (rest vs : List String)
    (n : Nat) (C : Ctx) (flag : Bool)
    (hn : n ≤ 2) (hvs : vs.length ≤ 2) (hzx : z ≠ x) (hzy : z ≠ y) :
    ((set_context (initState (.func nm ⟨n, vs⟩) flag) C).2 = some .indexError ∧
     (set_context (initState (.func nm ⟨n, vs⟩) flag) C).1.dunder_call =
       some (.func nm ⟨n, vs⟩)) ∧
    ((set_context (initState (.func nm ⟨n, x :: y :: z :: rest⟩) flag) C).2 = none ∧
     (set_context (initState (.func nm ⟨n, x :: y :: z :: rest⟩) flag) C).1.dunder_call =
       some (.wrapped (.func nm ⟨n, x :: y :: z :: rest⟩) z C) ∧
     ∀ ps, ∃ e, invoke (.wrapped (.func nm ⟨n, x :: y :: z :: rest⟩) z C) ps [] =
       .error e) := by
  have hzn : ((⟨n, vs⟩ : Code)).varnames[2]? = none := List.getElem?_eq_none hvs
  have e1 : set_context (initState (.func nm ⟨n, vs⟩) flag) C =
      (⟨some (.func nm ⟨n, vs⟩), some (.func nm ⟨n, vs⟩), true, false⟩,
        some .indexError) := by
    simp only [initState]
    rw [set_context_uncaptured, provide_func_short _ _ _ _ _ _ hzn]
  have hz3 : ((⟨n, x :: y :: z :: rest⟩ : Code)).varnames[2]? = some z := by simp
  have e2 : set_context (initState (.func nm ⟨n, x :: y :: z :: rest⟩) flag) C =
      (⟨some (.wrapped (.func nm ⟨n, x :: y :: z :: rest⟩) z C),
        some (.func nm ⟨n, x :: y :: z :: rest⟩), true, false⟩, none) := by
    simp only [initState]
    rw [set_context_uncaptured, provide_func_third _ _ _ _ _ _ _ hz3]
  refine ⟨⟨by rw [e1], by rw [e1]⟩, by rw [e2], by rw [e2], ?_⟩
  intro ps
  apply invoke_bogus_kw
  show n ≤ idxOf z (x :: y :: z :: rest)
  rw [idxOf_third x y z rest hzx hzy]
  exact hn

/-- Witness for C5 (amended) at concrete code objects. -/
theorem C5_missing_param_amended_witness :
    (2 : Nat) ≤ 2 ∧ (["self", "value"] : List String).length ≤ 2 ∧
    ("tmp" : String) ≠ "self" ∧ ("tmp" : String) ≠ "value" ∧
    (((set_context (initState (.func "f" ⟨2, ["self", "value"]⟩) true) 3).2 = some .indexError ∧
      (set_context (initState (.func "f" ⟨2, ["self", "value"]⟩) true) 3).1.dunder_call =
        some (.func "f" ⟨2, ["self", "value"]⟩)) ∧
     ((set_context (initState (.func "f" ⟨2, ["self", "value", "tmp"]⟩) true) 3).2 = none ∧
      (set_context (initState (.func "f" ⟨2, ["self", "value", "tmp"]⟩) true) 3).1.dunder_call =
        some (.wrapped (.func "f" ⟨2, ["self", "value", "tmp"]⟩) "tmp" 3) ∧
      ∀ ps, ∃ e, invoke (.wrapped (.func "f" ⟨2, ["self", "value", "tmp"]⟩) "tmp" 3) ps [] =
        .error e)) :=
  ⟨by decide, by decide, by decide, by decide,
   C5_missing_param_amended "f" "self" "value" "tmp" [] ["self", "value"] 2 3 true
     (by decide) (by decide) (by decide) (by decide)⟩

/-- C8: delivering a context to class `a` leaves every other class `b`'s
state — its entry point, its `requires_context` flag and its guard —
unchanged, since every attribute write of the mixin targets `cls`, the
receiving instance's own class. -/
theorem C8_isolation (w : World) (a b : Nat) (C : Ctx) (h : b ≠ a) :
    set_context_world w a C b = w b ∧
    (set_context_world w a C b).dunder_call = (w b).dunder_call ∧
    (set_context_world w a C b).requires_context = (w b).requires_context ∧
    (set_context_world w a C b).lockCreated = (w b).lockCreated := by
  have hb : set_context_world w a C b = w b := by
    simp [set_context_world, h]
  exact ⟨hb, by rw [hb], by rw [hb], by rw [hb]⟩

/-- Witness for C8 on a concrete two-class world. -/
theorem C8_isolation_witness :
    (1 : Nat) ≠ 0 ∧
    (set_context_world exWorld 0 7 1 = exWorld 1 ∧
     (set_context_world exWorld 0 7 1).dunder_call = (exWorld 1).dunder_call ∧
     (set_context_world exWorld 0 7 1).requires_context = (exWorld 1).requires_context ∧
     (set_context_world exWorld 0 7 1).lockCreated = (exWorld 1).lockCreated) :=
  ⟨by decide, C8_isolation exWorld 0 1 7 (by decide)⟩

/-- C9 (implicit): after each call in any sequential delivery sequence, the
class's `__call__` is exactly one pre-binding wrapper around the originally
captured entry point — wrappers never nest, because every delivery first
restores `__call__` to the captured original before wrapping it. -/
theorem C9_no_wrapper_nesting (nm : String) (cd : Code) (z : String) (flag : Bool)
    (c : Ctx) (cs : List Ctx) (hz : cd.varnames[2]? = some z) :
    (set_context_seq (initState (.func nm cd) flag) (c :: cs)).dunder_call =
      some (.wrapped (.func nm cd) z (lastCtx c cs)) := by
  rw [seq_cons]
  have e1 : set_context (initState (.func nm cd) flag) c =
      (⟨some (.wrapped (.func nm cd) z c), some (.func nm cd), true, false⟩, none) := by
    simp only [initState]
    rw [set_context_uncaptured, provide_func_third _ _ _ _ _ _ _ hz]
  rw [e1]
  cases cs with
  | nil => rfl
  | cons c1 cs' =>
    exact seq_wrapped_inv nm cd z hz cs' c1 true false
      (some (.wrapped (.func nm cd) z c))

/-- Witness for C9 on a three-delivery sequence. -/
theorem C9_no_wrapper_nesting_witness :
    ((⟨3, ["self", "value", "serializer_field"]⟩ : Code)).varnames[2]? =
      some "serializer_field" ∧
    (set_context_seq (initState (.func "f" ⟨3, ["self", "value", "serializer_field"]⟩) true)
        [4, 5, 6]).dunder_call =
      some (.wrapped (.func "f" ⟨3, ["self", "value", "serializer_field"]⟩)
        "serializer_field" (lastCtx 4 [5, 6])) :=
  ⟨rfl, C9_no_wrapper_nesting "f" ⟨3, ["self", "value", "serializer_field"]⟩
    "serializer_field" true 4 [5, 6] rfl⟩

/-- C10 (implicit): the `requires_context` flag is written only inside the
first-delivery branch: once `_original_dunder_call` is captured, a later
`set_context` leaves the flag exactly as it was — even if external code
re-enabled it to `True` in between. -/
theorem C10_flag_untouched_after_first (dc : Option Callable) (g : Callable)
    (lk flag : Bool) (C : Ctx) :
    ((set_context ⟨dc, some g, lk, flag⟩ C).1).requires_context = flag := by
  rw [set_context_captured, provide_keeps_flag]

/-! ### Interleaving model of concurrent `set_context`

Each Python attribute read or write performed by `set_context` (including
the lazy lock creation inside the `_dunder_call_modification_guard`
classproperty) is one atomic step; the CPython GIL permits a thread switch
between any two of them.  Lock objects are identified by allocation order.

Program counter of one thread running `set_context(ctx)`:
  0: read `cls._dunder_call_lock`, remember whether it was falsy (`None`);
  1: if it was: allocate a fresh `threading.Lock()` and store it;
  2: re-read `cls._dunder_call_lock` (the classproperty's `return`) — this
     is the lock object the `with` statement will use;
  3: acquire that lock (blocks while that same object is held);
  4: read `cls._original_dunder_call`, branch on its falsiness;
  5: `cls._original_dunder_call = cls.__call__`;
  6: `cls.requires_context = False`;
  7: `cls.__call__ = cls._original_dunder_call`;
  8: read `cls.__call__.__code__.co_varnames[2]` (may raise);
  9: `cls.__call__ = functools.partialmethod(cls.__call__, ...)`;
 10: release the lock acquired at step 3 (also on the exception path);
 11: finished. -/

structure Shared where
  dunder_call : Option Callable
  original_dunder_call : Option Callable
  lockSlot : Option Nat
  requires_context : Bool
  nextLock : Nat
  held : List Nat
  deriving DecidableEq, Repr

structure ThreadState where
  pc : Nat
  ctx : Ctx
  sawNoLock : Bool
  myLock : Nat
  kwName : String
  err : Option PyErr
  deriving DecidableEq, Repr

/-- One atomic step of a thread running `set_context`; `none` when the
thread is blocked on the lock acquisition or already finished. -/
def stepThread (sh : Shared) (t : ThreadState) : Option (Shared × ThreadState) :=
  match t.pc with
  | 0 => some (sh, { t with pc := 1, sawNoLock := sh.lockSlot.isNone })
  | 1 =>
    if t.sawNoLock then
      some ({ sh with lockSlot := some sh.nextLock, nextLock := sh.nextLock + 1 },
        { t with pc := 2 })
    else some (sh, { t with pc := 2 })
  | 2 => some (sh, { t with pc := 3, myLock := sh.lockSlot.getD 0 })
  | 3 =>
    if sh.held.contains t.myLock then none
    else some ({ sh with held := t.myLock :: sh.held }, { t with pc := 4 })
  | 4 => some (sh, { t with pc := if sh.original_dunder_call.isNone then 5 else 7 })
  | 5 => some ({ sh with original_dunder_call := sh.dunder_call }, { t with pc := 6 })
  | 6 => some ({ sh with requires_context := false }, { t with pc := 7 })
  | 7 => some ({ sh with dunder_call := sh.original_dunder_call }, { t with pc := 8 })
  | 8 =>
    match sh.dunder_call with
    | none => some (sh, { t with pc := 10, err := some .attributeError })
    | some f =>
      match dunderCode f with
      | none => some (sh, { t with pc := 10, err := some .attributeError })
      | some cd =>
        match cd.varnames[2]? with
        | none => some (sh, { t with pc := 10, err := some .indexError })
        | some nm => some (sh, { t with pc := 9, kwName := nm })
  | 9 =>
    match sh.dunder_call with
    | none => some (sh, { t with pc := 10, err := some .notCallable })
    | some f =>
      some ({ sh with dunder_call := some (.wrapped f t.kwName t.ctx) },
        { t with pc := 10 })
  | 10 => some ({ sh with held := sh.held.erase t.myLock }, { t with pc := 11 })
  | _ => none

structure Sys where
  shared : Shared
  threads : List ThreadState
  deriving DecidableEq, Repr

/-- Schedule thread `i` for one step (a no-op if it is blocked, finished or
does not exist). -/
def stepSys (sys : Sys) (i : Nat) : Sys :=
  match sys.threads.get? i with
  | none => sys
  | some t =>
    match stepThread sys.shared t with
    | none => sys
    | some (sh, t2) => ⟨sh, sys.threads.set i t2⟩

/-- Run a schedule: a list of thread indices, executed left to right. -/
def runSched (sys : Sys) (sched : List Nat) : Sys :=
  sched.foldl stepSys sys

/-- A well-formed DRF-shaped entry point, for the concurrency scenarios. -/
def f3 : Callable := .func "f" ⟨3, ["self", "value", "serializer_field"]⟩

/-- Two threads about to call `set_context` (with contexts `1` and `2`) on
the same fresh class: `__call__` is `f3`, no original captured, no lock
object created yet. -/
def twoThreadInit : Sys :=
  ⟨⟨some f3, none, none, true, 0, []⟩,
   [⟨0, 1, false, 0, "", none⟩, ⟨0, 2, false, 0, "", none⟩]⟩

/-- C6, violated at a concrete interleaving: both threads read the empty
`_dunder_call_lock` slot (step 0) before either stores its lock (step 1).
Thread 0 then creates, returns and acquires lock object `0`; thread 1
overwrites the slot with its own lock object `1` and acquires that one.
Two distinct guard objects were created (`nextLock = 2`) and the two threads
end up holding two distinct guards at once (`held = [1, 0]`), so the
check-then-set creation is not atomic and does not create the guard exactly
once. -/
theorem C6_guard_race_cex :
    (runSched twoThreadInit [0, 1, 0, 0, 0, 1, 1, 1]).shared.nextLock = 2 ∧
    ((runSched twoThreadInit [0, 1, 0, 0, 0, 1, 1, 1]).threads.get? 0).map
      ThreadState.myLock = some 0 ∧
    ((runSched twoThreadInit [0, 1, 0, 0, 0, 1, 1, 1]).threads.get? 1).map
      ThreadState.myLock = some 1 ∧
    (runSched twoThreadInit [0, 1, 0, 0, 0, 1, 1, 1]).shared.held = [1, 0] :=
  ⟨rfl, rfl, rfl, rfl⟩

/-- C7, violated at a concrete interleaving extending the guard race of C6:
with each thread holding its own lock, both pass the acquisition and are
inside the capture-and-rebind sequence at the same time (both at pc 4).
Thread 0 captures the original entry point and rebinds; thread 1, which had
already read `_original_dunder_call` as `None`, then captures it a second
time — and the "original" it stores is thread 0's already-wrapped
`partialmethod`, not the class's own entry point. -/
theorem C7_serialization_cex :
    (((runSched twoThreadInit [0, 1, 0, 0, 0, 1, 1, 1]).threads.get? 0).map
        ThreadState.pc = some 4 ∧
     ((runSched twoThreadInit [0, 1, 0, 0, 0, 1, 1, 1]).threads.get? 1).map
        ThreadState.pc = some 4) ∧
    (runSched twoThreadInit
        [0, 1, 0, 0, 0, 1, 1, 1, 0, 1, 0, 0, 0, 0, 0]).shared.original_dunder_call =
      some f3 ∧
    (runSched twoThreadInit
        [0, 1, 0, 0, 0, 1, 1, 1, 0, 1, 0, 0, 0, 0, 0, 1]).shared.original_dunder_call =
      some (.wrapped f3 "serializer_field" 1) :=
  ⟨⟨rfl, rfl⟩, rfl, rfl⟩

end ValidatorContextBackport
